import Mathlib

/-!
Verification of the chimerascan filter stage (`pipeline/filter_chimeras.py`)
and the pipeline driver (`chimerascan_run.py`, plain and trunk revisions).

Chimera records are modelled as records carrying the fields and evidence
counters that the filter stage reads.  The `Chimera` class itself lives in
`chimerascan.lib.chimera`, outside the files embedded here, so its derived
quantities (weighted cov, fragment counts, spanning counters) appear as
record fields; weighted (fractional) quantities are rationals.
-/

/-- One partner (5' or 3') of a chimera record.  Fields are the ones read by
the filter stage: transcript name, transcript-space start/end and the
predicted inner distance. -/
structure ChimeraPartner where
  tx_name : String
  start : Int
  «end» : Int
  inner_dist : Int
deriving DecidableEq

/-- A chimera record as consumed by `filter_chimeras`: a name, the two
partners, and the evidence counters returned by the `Chimera` accessor
methods. -/
structure Chimera where
  name : String
  partner5p : ChimeraPartner
  partner3p : ChimeraPartner
  num_spanning_frags : Nat
  num_unique_spanning_positions : Nat
  weighted_cov : ℚ
  num_frags : Nat
  weighted_unique_frags : ℚ
deriving DecidableEq

/-- Accessor mirroring `Chimera.get_weighted_unique_frags`. -/
def Chimera.get_weighted_unique_frags (c : Chimera) : ℚ :=
  c.weighted_unique_frags

/-- Accessor mirroring `Chimera.get_weighted_cov`. -/
def Chimera.get_weighted_cov (c : Chimera) : ℚ :=
  c.weighted_cov

/-- Accessor mirroring `Chimera.get_num_frags`. -/
def Chimera.get_num_frags (c : Chimera) : Nat :=
  c.num_frags

/-- Accessor mirroring `Chimera.get_num_unique_spanning_positions`. -/
def Chimera.get_num_unique_spanning_positions (c : Chimera) : Nat :=
  c.num_unique_spanning_positions

/-- `filter_weighted_frags` (filter_chimeras.py lines 33-40):
`return c.get_weighted_unique_frags() >= threshold`. -/
def filter_weighted_frags (c : Chimera) (threshold : ℚ) : Bool :=
  decide (c.get_weighted_unique_frags ≥ threshold)

/-- `filter_inner_dist` (filter_chimeras.py lines 42-54): passes every
chimera when `max_isize <= 0`; otherwise fails a chimera whenever either
partner's `inner_dist` exceeds `max_isize`. -/
def filter_inner_dist (c : Chimera) (max_isize : Int) : Bool :=
  if max_isize ≤ 0 then true
  else if c.partner5p.inner_dist > max_isize then false
  else if c.partner3p.inner_dist > max_isize then false
  else true

/-- The false-positive lookup key built in `filter_chimeras`
(filter_chimeras.py lines 131-132). -/
def false_pos_key (c : Chimera) : String × Int × String × Int :=
  (c.partner5p.tx_name, c.partner5p.«end», c.partner3p.tx_name, c.partner3p.start)

/-- The first-pass accept test of `filter_chimeras` (lines 129-133):
weighted-fragment filter, then inner-distance filter, then the
false-positive blacklist. -/
def chimera_passes (weighted_unique_frags : ℚ) (max_isize : Int)
    (false_pos_pairs : List (String × Int × String × Int)) (c : Chimera) : Bool :=
  filter_weighted_frags c weighted_unique_frags
    && filter_inner_dist c max_isize
    && !(decide (false_pos_key c ∈ false_pos_pairs))

/-- The ranking statistics used by `get_highest_coverage_isoforms`
(filter_chimeras.py lines 74-77), compared lexicographically as Python
compares the tuples `(num_unique_spanning_positions, weighted_cov,
num_frags)` when it sorts the keys. -/
abbrev ChimeraStats := ℕ ×ₗ (ℚ ×ₗ ℕ)

/-- The statistics tuple of one record (the tail of the key built at
filter_chimeras.py lines 74-77). -/
def chimeraStats (c : Chimera) : ChimeraStats :=
  toLex (c.get_num_unique_spanning_positions,
    toLex (c.get_weighted_cov, c.get_num_frags))

/-- The grouping key of `get_highest_coverage_isoforms` (filter_chimeras.py
lines 78-85): 5'/3' transcript clusters and the genomic positions of
`partner5p.end - 1` and `partner3p.start`.  `txClusterMap` and
`txGenomeMap` stand for the lookup tables built by `build_tx_cluster_map`
and `build_gene_to_genome_map`/`gene_to_genome_pos`
(`chimerascan.lib.gene_to_genome`, outside the embedded files); they are
parameters of every definition that groups records. -/
def chimeraKey (txClusterMap : String → ℕ) (txGenomeMap : String → Int → Int)
    (c : Chimera) : ℕ × ℕ × Int × Int :=
  (txClusterMap c.partner5p.tx_name,
   txClusterMap c.partner3p.tx_name,
   txGenomeMap c.partner5p.tx_name (c.partner5p.«end» - 1),
   txGenomeMap c.partner3p.tx_name c.partner3p.start)

/-- The statistics tuples of all records of one cluster group. -/
def clusterStatsList (txClusterMap : String → ℕ) (txGenomeMap : String → Int → Int)
    (cs : List Chimera) (k : ℕ × ℕ × Int × Int) : List ChimeraStats :=
  (cs.filter fun c => decide (chimeraKey txClusterMap txGenomeMap c = k)).map chimeraStats

/-- A record is selected by `get_highest_coverage_isoforms` iff its
statistics tuple equals the lexicographic maximum of its group
(`sorted(stats_dict.keys(), reverse=True)[0]` at filter_chimeras.py
lines 94-96; the names indexed under that maximal tuple are kept). -/
def isHighestCoverage (txClusterMap : String → ℕ) (txGenomeMap : String → Int → Int)
    (cs : List Chimera) (c : Chimera) : Bool :=
  decide ((clusterStatsList txClusterMap txGenomeMap cs
    (chimeraKey txClusterMap txGenomeMap c)).maximum = (chimeraStats c : WithBot ChimeraStats))

/-- `get_highest_coverage_isoforms` (filter_chimeras.py lines 65-97): the
names of the records whose statistics tuple is maximal within their group. -/
def get_highest_coverage_isoforms (txClusterMap : String → ℕ)
    (txGenomeMap : String → Int → Int) (cs : List Chimera) : List String :=
  (cs.filter (isHighestCoverage txClusterMap txGenomeMap cs)).map Chimera.name

/-- The keep-only-selected rewrite of `filter_chimeras` (lines 145-152):
records of the list whose name is in the kept set. -/
def collapse_isoforms (txClusterMap : String → ℕ) (txGenomeMap : String → Int → Int)
    (cs : List Chimera) : List Chimera :=
  cs.filter fun c =>
    decide (c.name ∈ get_highest_coverage_isoforms txClusterMap txGenomeMap cs)

/-- Record-level behaviour of `filter_chimeras` (filter_chimeras.py lines
109-156): the first pass writes the records passing `chimera_passes` to the
temporary file, `get_highest_coverage_isoforms` is computed on that file,
and the second pass re-reads the input and keeps the records whose name is
in the kept set. -/
def filter_chimeras_records (txClusterMap : String → ℕ)
    (txGenomeMap : String → Int → Int) (cs : List Chimera)
    (weighted_unique_frags : ℚ) (max_isize : Int)
    (false_pos_pairs : List (String × Int × String × Int)) : List Chimera :=
  let tmp := cs.filter (chimera_passes weighted_unique_frags max_isize false_pos_pairs)
  let kept := get_highest_coverage_isoforms txClusterMap txGenomeMap tmp
  cs.filter fun c => decide (c.name ∈ kept)

/-- `DEFAULT_COV_WITHOUT_SPANNING` (trunk/chimerascan_run.py line 85). -/
def DEFAULT_COV_WITHOUT_SPANNING : ℚ := 3

/-- `DEFAULT_COV_WITH_SPANNING` (trunk/chimerascan_run.py line 86). -/
def DEFAULT_COV_WITH_SPANNING : ℚ := 2

/-- Modelled from the spec: the trunk revision of `filter_chimeras` that
`trunk/chimerascan_run.py` (lines 836-841) calls with the two thresholds
`cov_wo_spanning` and `cov_w_spanning` is not among the embedded files; per
the spec the weighted-coverage filter applies the lower with-spanning
threshold when at least one spanning read is present and the higher
without-spanning threshold otherwise, the comparison itself being the
`>=` of `filter_weighted_frags`. -/
def filter_cov_by_spanning (c : Chimera) (cov_wo_spanning cov_w_spanning : ℚ) : Bool :=
  if 0 < c.num_spanning_frags then
    filter_weighted_frags c cov_w_spanning
  else
    filter_weighted_frags c cov_wo_spanning

/-- `DEFAULT_MISMATCHES` (trunk/chimerascan_run.py line 70). -/
def DEFAULT_MISMATCHES : Nat := 2

/-- `DEFAULT_ANCHOR_MIN` (trunk/chimerascan_run.py line 81). -/
def DEFAULT_ANCHOR_MIN : Nat := 4

/-- `DEFAULT_ANCHOR_LENGTH` (trunk/chimerascan_run.py line 82). -/
def DEFAULT_ANCHOR_LENGTH : Nat := 8

/-- `DEFAULT_ANCHOR_MISMATCHES` (trunk/chimerascan_run.py line 83). -/
def DEFAULT_ANCHOR_MISMATCHES : Nat := 0

/-- Modelled from the spec: `merge_spanning_alignments`
(`chimerascan.pipeline.merge_spanning_alignments`, called at
trunk/chimerascan_run.py lines 816-824) is not among the embedded files;
per the spec a read is accepted as spanning evidence only if its
shorter-side junction overlap (`anchor`) is at least `anchor_min`, a read
whose anchor is below `anchor_length` must additionally have at most
`anchor_mismatches` mismatches, and every read is subject to the global
mismatch budget. -/
def spanning_read_accepted (anchor mismatches anchor_min anchor_length
    anchor_mismatches mismatch_budget : Nat) : Bool :=
  decide (anchor_min ≤ anchor)
    && (if anchor < anchor_length then decide (mismatches ≤ anchor_mismatches) else true)
    && decide (mismatches ≤ mismatch_budget)

/-- An insert-size distribution, reduced to its list of sampled insert
sizes (`InsertSizeDistribution` lives in
`chimerascan.pipeline.profile_insert_size`, outside the embedded files;
only the sample count `n` and the sample support matter here). -/
structure InsertSizeDistribution where
  isizes : List Int
deriving DecidableEq

/-- The sample count `isize_dist.n`. -/
def InsertSizeDistribution.n (d : InsertSizeDistribution) : Nat :=
  d.isizes.length

/-- Modelled from the spec: `InsertSizeDistribution.from_random` (outside
the embedded files) generates a synthetic distribution of `samples` insert
sizes from the configured mean and standard deviation, bounded by the
`[min_isize, max_isize]` range; the draws of the underlying random source
are abstracted as `noise`, each sample being the mean plus stdev-scaled
noise clamped into the range. -/
def InsertSizeDistribution.from_random (isize_mean isize_stdev : Int)
    (min_isize max_isize : Int) (samples : Nat) (noise : Nat → Int) :
    InsertSizeDistribution :=
  ⟨(List.range samples).map fun i =>
      max min_isize (min max_isize (isize_mean + isize_stdev * noise i))⟩

/-- The insert-size fallback branch of `run_chimerascan`
(trunk/chimerascan_run.py lines 590-603): when the empirical distribution
has fewer than `isize_min_samples` samples it is replaced by
`InsertSizeDistribution.from_random` over the configured mean/stdev and the
fragment-length range, and a warning is logged (the returned Bool). -/
def insert_size_fallback (empirical : InsertSizeDistribution)
    (isize_mean isize_stdev min_fragment_length max_fragment_length : Int)
    (max_isize_samples isize_min_samples : Nat) (noise : Nat → Int) :
    InsertSizeDistribution × Bool :=
  if empirical.n < isize_min_samples then
    (InsertSizeDistribution.from_random isize_mean isize_stdev
        min_fragment_length max_fragment_length max_isize_samples noise, true)
  else
    (empirical, false)

/-- A file system mapping a path to its lines, for the file behaviour of
`filter_chimeras`. -/
def FileSys : Type :=
  String → Option (List String)

/-- Opening a path for writing and writing `content` to it. -/
def FileSys.write (fs : FileSys) (path : String) (content : List String) : FileSys :=
  fun p => if p = path then some content else fs p

/-- `os.remove`. -/
def FileSys.remove (fs : FileSys) (path : String) : FileSys :=
  fun p => if p = path then none else fs p

/-- Opening a path for reading and reading its lines. -/
def FileSys.readLines (fs : FileSys) (path : String) : List String :=
  (fs path).getD []

/-- The file behaviour of `filter_chimeras` (filter_chimeras.py lines
109-156): parse the input, write the first-pass survivors to the temporary
file, compute the kept isoforms from the temporary file, re-read the input,
write the kept records to the output file, and remove the temporary file.
`parse` and `render` stand for `Chimera.parse` and
`'\t'.join(map(str, c.to_list()))` (`chimerascan.lib.chimera`, outside the
embedded files); `tmp_file` is the fresh path returned by `make_temp`. -/
def filter_chimeras_fs (parse : List String → List Chimera)
    (render : Chimera → String)
    (txClusterMap : String → ℕ) (txGenomeMap : String → Int → Int)
    (fs : FileSys) (input_file output_file tmp_file : String)
    (weighted_unique_frags : ℚ) (max_isize : Int)
    (false_pos_pairs : List (String × Int × String × Int)) : FileSys :=
  let cs := parse (fs.readLines input_file)
  let fs1 := fs.write tmp_file
    ((cs.filter (chimera_passes weighted_unique_frags max_isize false_pos_pairs)).map render)
  let kept := get_highest_coverage_isoforms txClusterMap txGenomeMap
    (parse (fs1.readLines tmp_file))
  let cs2 := parse (fs1.readLines input_file)
  let fs2 := fs1.write output_file
    ((cs2.filter fun c => decide (c.name ∈ kept)).map render)
  fs2.remove tmp_file

/-- The `os.path` view a pipeline run sees: existence, size and
modification time of each path. -/
structure PathState where
  path_exists : String → Bool
  getsize : String → Nat
  getmtime : String → Int

/-- `up_to_date` (chimerascan_run.py lines 484-491): False when the input
is missing, the output is missing, or the output is empty; otherwise the
output's mtime must be at least the input's. -/
def up_to_date (ps : PathState) (outfile infile : String) : Bool :=
  if !(ps.path_exists infile) then false
  else if !(ps.path_exists outfile) then false
  else if ps.getsize outfile = 0 then false
  else decide (ps.getmtime outfile ≥ ps.getmtime infile)

/-- A cluster map for concrete examples: every transcript in one cluster. -/
def exampleClusterMap : String → ℕ :=
  fun _ => 0

/-- A genome map for concrete examples. -/
def exampleGenomeMap : String → Int → Int :=
  fun _ p => p

/-- Two concrete records with the same partners (hence the same group key)
and identical ranking statistics but different names. -/
def tieChimera1 : Chimera :=
  ⟨"CHIM1", ⟨"TXA", 0, 100, 50⟩, ⟨"TXB", 10, 90, 60⟩, 1, 2, 5, 6, 4⟩

/-- Second record of the tied pair. -/
def tieChimera2 : Chimera :=
  ⟨"CHIM2", ⟨"TXA", 0, 100, 50⟩, ⟨"TXB", 10, 90, 60⟩, 1, 2, 5, 6, 4⟩

/-- A concrete record whose partners both predict an inner distance of
1500 bases. -/
def innerChimera : Chimera :=
  ⟨"CHIM3", ⟨"TXC", 0, 200, 1500⟩, ⟨"TXD", 5, 80, 1500⟩, 0, 0, 9, 9, 9⟩

/-- A concrete record with high coverage and spanning evidence, used with a
blacklist that contains its false-positive key. -/
def blackChimera : Chimera :=
  ⟨"CHIM4", ⟨"TXE", 0, 300, 40⟩, ⟨"TXF", 7, 70, 40⟩, 5, 5, 100, 120, 100⟩

/-- A concrete record with one spanning fragment and weighted unique
fragment count 2, between the trunk default thresholds 2 and 3. -/
def spanChimera : Chimera :=
  ⟨"CHIM5", ⟨"TXG", 0, 150, 30⟩, ⟨"TXH", 3, 60, 30⟩, 1, 1, 3, 3, 2⟩

/-- Trivial parser for file-level witnesses. -/
def exParse : List String → List Chimera :=
  fun _ => []

/-- Trivial renderer for file-level witnesses. -/
def exRender : Chimera → String :=
  fun _ => ""

/-- Input path of the file-level witness. -/
def inputPath : String := "chimeras.txt"

/-- Output path of the file-level witness. -/
def outputPath : String := "chimeras.filtered.txt"

/-- Temporary path of the file-level witness. -/
def tmpPath : String := "tmp0001.txt"

/-- Concrete file system of the file-level witness. -/
def exFS : FileSys :=
  fun p => if p = inputPath then some ["record1"] else none

theorem isHighestCoverage_iff_forall (cm : String → ℕ) (gm : String → Int → Int)
    (cs : List Chimera) (c : Chimera) (hc : c ∈ cs) :
    isHighestCoverage cm gm cs c = true ↔
      ∀ c' ∈ cs, chimeraKey cm gm c' = chimeraKey cm gm c →
        chimeraStats c' ≤ chimeraStats c := by
  unfold isHighestCoverage
  rw [decide_eq_true_iff]
  constructor
  · intro hmax c' hc' hk
    refine List.le_maximum_of_mem ?_ hmax
    exact List.mem_map_of_mem _ (List.mem_filter.2 ⟨hc', by simp [hk]⟩)
  · intro hub
    have hmem : chimeraStats c ∈ clusterStatsList cm gm cs (chimeraKey cm gm c) :=
      List.mem_map_of_mem _ (List.mem_filter.2 ⟨hc, by simp⟩)
    cases hmax : (clusterStatsList cm gm cs (chimeraKey cm gm c)).maximum with
    | bot =>
        have : clusterStatsList cm gm cs (chimeraKey cm gm c) = [] :=
          List.maximum_eq_bot.mp hmax
        rw [this] at hmem
        exact absurd hmem (List.not_mem_nil _)
    | coe m =>
        have hm_mem : m ∈ clusterStatsList cm gm cs (chimeraKey cm gm c) :=
          List.maximum_mem hmax
        obtain ⟨c', hc'f, hstat⟩ := List.mem_map.1 hm_mem
        obtain ⟨hc'cs, hk'⟩ := List.mem_filter.1 hc'f
        have hk'' : chimeraKey cm gm c' = chimeraKey cm gm c := by
          simpa using hk'
        have h1 : m ≤ chimeraStats c := hstat ▸ hub c' hc'cs hk''
        have h2 : chimeraStats c ≤ m := List.le_maximum_of_mem hmem hmax
        exact congrArg _ (le_antisymm h1 h2)

theorem name_mem_kept_iff (cm : String → ℕ) (gm : String → Int → Int)
    (cs : List Chimera) (hn : (cs.map Chimera.name).Nodup) (c : Chimera) (hc : c ∈ cs) :
    c.name ∈ get_highest_coverage_isoforms cm gm cs ↔
      isHighestCoverage cm gm cs c = true := by
  unfold get_highest_coverage_isoforms
  constructor
  · intro h
    obtain ⟨c', hc'f, hname⟩ := List.mem_map.1 h
    obtain ⟨hc'cs, hhc⟩ := List.mem_filter.1 hc'f
    have : c' = c := List.inj_on_of_nodup_map hn hc'cs hc hname
    rwa [this] at hhc
  · intro h
    exact List.mem_map_of_mem _ (List.mem_filter.2 ⟨hc, h⟩)

theorem mem_collapse_isoforms_iff (cm : String → ℕ) (gm : String → Int → Int)
    (cs : List Chimera) (hn : (cs.map Chimera.name).Nodup) (c : Chimera) :
    c ∈ collapse_isoforms cm gm cs ↔
      c ∈ cs ∧ ∀ c' ∈ cs, chimeraKey cm gm c' = chimeraKey cm gm c →
        chimeraStats c' ≤ chimeraStats c := by
  unfold collapse_isoforms
  rw [List.mem_filter]
  constructor
  · rintro ⟨hc, hk⟩
    have hname := of_decide_eq_true hk
    have hsel := (name_mem_kept_iff cm gm cs hn c hc).1 hname
    exact ⟨hc, (isHighestCoverage_iff_forall cm gm cs c hc).1 hsel⟩
  · rintro ⟨hc, hub⟩
    refine ⟨hc, decide_eq_true ?_⟩
    exact (name_mem_kept_iff cm gm cs hn c hc).2
      ((isHighestCoverage_iff_forall cm gm cs c hc).2 hub)

/-- C9: `up_to_date(outfile, infile)` returns True iff the input exists,
the output exists, the output is non-empty, and the output's modification
time is at least the input's; whenever either file is missing or the
output is empty it returns False. -/
theorem up_to_date_iff (ps : PathState) (outfile infile : String) :
    up_to_date ps outfile infile = true ↔
      (ps.path_exists infile = true ∧ ps.path_exists outfile = true ∧
        0 < ps.getsize outfile ∧ ps.getmtime infile ≤ ps.getmtime outfile) := by
  unfold up_to_date
  cases h1 : ps.path_exists infile <;>
    cases h2 : ps.path_exists outfile <;>
      by_cases h3 : ps.getsize outfile = 0 <;>
        simp [h1, h2, h3, ge_iff_le] <;>
          omega

/-- C10: when `max_isize <= 0` the inner-distance filter is disabled and
passes every chimera. -/
theorem inner_dist_filter_disabled (c : Chimera) (max_isize : Int)
    (h : max_isize ≤ 0) :
    filter_inner_dist c max_isize = true := by
  unfold filter_inner_dist
  rw [if_pos h]

/-- Witness for C10 at a chimera whose partners both have inner distance
1500 and `max_isize = -5`. -/
theorem inner_dist_filter_disabled_witness :
    (-5 : Int) ≤ 0 ∧ filter_inner_dist innerChimera (-5) = true :=
  ⟨by decide, inner_dist_filter_disabled innerChimera (-5) (by decide)⟩

/-- C4: for `max_isize > 0` the inner-distance filter rejects a chimera iff
either partner's inner distance exceeds `max_isize`. -/
theorem inner_dist_filter_rejects_iff (c : Chimera) (max_isize : Int)
    (h : 0 < max_isize) :
    filter_inner_dist c max_isize = false ↔
      (max_isize < c.partner5p.inner_dist ∨ max_isize < c.partner3p.inner_dist) := by
  unfold filter_inner_dist
  rw [if_neg (by omega)]
  by_cases h5 : c.partner5p.inner_dist > max_isize <;>
    by_cases h3 : c.partner3p.inner_dist > max_isize <;>
      simp [h5, h3]

/-- Witness for C4: a chimera with inner distance 1500 on both partners is
rejected at the percentile value 1200 and accepted at 1600. -/
theorem inner_dist_filter_rejects_iff_witness :
    (0 : Int) < 1200 ∧
    (filter_inner_dist innerChimera 1200 = false ↔
      (1200 < innerChimera.partner5p.inner_dist ∨
        1200 < innerChimera.partner3p.inner_dist)) ∧
    filter_inner_dist innerChimera 1200 = false ∧
    filter_inner_dist innerChimera 1600 = true :=
  ⟨by decide, inner_dist_filter_rejects_iff innerChimera 1200 (by decide),
    by decide, by decide⟩

/-- C1: with the with-spanning threshold no larger than the
without-spanning threshold, the weighted-coverage filter passes a record
iff its weighted unique-fragment count is at least the threshold
applicable to its spanning-read status: the lower `cov_w_spanning` when at
least one spanning read is present, the higher `cov_wo_spanning`
otherwise. -/
theorem weighted_cov_threshold_by_spanning (c : Chimera)
    (cov_wo_spanning cov_w_spanning : ℚ)
    (h : cov_w_spanning ≤ cov_wo_spanning) :
    filter_cov_by_spanning c cov_wo_spanning cov_w_spanning = true ↔
      (if 0 < c.num_spanning_frags then cov_w_spanning else cov_wo_spanning) ≤
        c.get_weighted_unique_frags := by
  unfold filter_cov_by_spanning filter_weighted_frags
  split <;> simp [ge_iff_le]

/-- Witness for C1 at the trunk defaults (with-spanning 2, without 3) and a
record with one spanning fragment and weighted count 5/2: the lower
threshold applies and the record passes. -/
theorem weighted_cov_threshold_by_spanning_witness :
    DEFAULT_COV_WITH_SPANNING ≤ DEFAULT_COV_WITHOUT_SPANNING ∧
    (filter_cov_by_spanning spanChimera DEFAULT_COV_WITHOUT_SPANNING
        DEFAULT_COV_WITH_SPANNING = true ↔
      (if 0 < spanChimera.num_spanning_frags then DEFAULT_COV_WITH_SPANNING
        else DEFAULT_COV_WITHOUT_SPANNING) ≤
        spanChimera.get_weighted_unique_frags) ∧
    filter_cov_by_spanning spanChimera DEFAULT_COV_WITHOUT_SPANNING
      DEFAULT_COV_WITH_SPANNING = true ∧
    filter_weighted_frags spanChimera DEFAULT_COV_WITHOUT_SPANNING = false :=
  ⟨by decide,
    weighted_cov_threshold_by_spanning spanChimera DEFAULT_COV_WITHOUT_SPANNING
      DEFAULT_COV_WITH_SPANNING (by decide),
    by decide, by decide⟩

/-- C5: under the trunk defaults (`anchor_min = 4`, `anchor_length = 8`,
`anchor_mismatches = 0`, global budget 2), an anchor of 3 is rejected for
every mismatch count, an anchor of 6 with 1 mismatch is rejected, and an
anchor of 10 with 1 mismatch is accepted; in general a read is accepted
iff its anchor reaches `anchor_min`, an anchor short of `anchor_length`
carries at most `anchor_mismatches` mismatches, and the global mismatch
budget holds. -/
theorem spanning_anchor_rule :
    (∀ m : Nat, spanning_read_accepted 3 m DEFAULT_ANCHOR_MIN DEFAULT_ANCHOR_LENGTH
        DEFAULT_ANCHOR_MISMATCHES DEFAULT_MISMATCHES = false) ∧
    spanning_read_accepted 6 1 DEFAULT_ANCHOR_MIN DEFAULT_ANCHOR_LENGTH
        DEFAULT_ANCHOR_MISMATCHES DEFAULT_MISMATCHES = false ∧
    spanning_read_accepted 10 1 DEFAULT_ANCHOR_MIN DEFAULT_ANCHOR_LENGTH
        DEFAULT_ANCHOR_MISMATCHES DEFAULT_MISMATCHES = true ∧
    (∀ anchor mismatches anchor_min anchor_length anchor_mismatches budget : Nat,
      spanning_read_accepted anchor mismatches anchor_min anchor_length
          anchor_mismatches budget = true ↔
        (anchor_min ≤ anchor ∧ (anchor < anchor_length → mismatches ≤ anchor_mismatches) ∧
          mismatches ≤ budget)) := by
  refine ⟨?_, by decide, by decide, ?_⟩
  · intro m
    simp [spanning_read_accepted, DEFAULT_ANCHOR_MIN, DEFAULT_ANCHOR_LENGTH,
      DEFAULT_ANCHOR_MISMATCHES, DEFAULT_MISMATCHES]
  · intro anchor mismatches anchor_min anchor_length anchor_mismatches budget
    unfold spanning_read_accepted
    split <;> rename_i hlen <;> simp [hlen] <;> tauto

/-- Counterexample to C2: two distinct records share the same group key and
identical (spanning, weighted coverage, raw count) statistics, and the
isoform-collapse pass keeps both of them, not a single one. -/
theorem collapse_keeps_tied_isoforms :
    collapse_isoforms exampleClusterMap exampleGenomeMap [tieChimera1, tieChimera2] =
      [tieChimera1, tieChimera2] ∧
    tieChimera1 ≠ tieChimera2 ∧
    chimeraKey exampleClusterMap exampleGenomeMap tieChimera1 =
      chimeraKey exampleClusterMap exampleGenomeMap tieChimera2 := by
  refine ⟨by decide, by decide, by decide⟩

/-- C2 (amended): among records sharing the identical key, the
isoform-collapse pass keeps exactly the records whose (spanning count,
weighted coverage, raw fragment count) tuple is the lexicographic maximum
of the group — the single highest-ranked record when that maximum is
attained uniquely — and discards every record with a strictly smaller
tuple (record names assumed distinct). -/
theorem collapse_keeps_group_maxima (cm : String → ℕ) (gm : String → Int → Int)
    (cs : List Chimera) (hn : (cs.map Chimera.name).Nodup) (c : Chimera) :
    c ∈ collapse_isoforms cm gm cs ↔
      c ∈ cs ∧ ∀ c' ∈ cs, chimeraKey cm gm c' = chimeraKey cm gm c →
        chimeraStats c' ≤ chimeraStats c :=
  mem_collapse_isoforms_iff cm gm cs hn c

/-- Witness for the amended C2 at the tied pair: both tied records are in
the collapsed set. -/
theorem collapse_keeps_group_maxima_witness :
    (([tieChimera1, tieChimera2].map Chimera.name).Nodup) ∧
    (tieChimera1 ∈ collapse_isoforms exampleClusterMap exampleGenomeMap
        [tieChimera1, tieChimera2] ↔
      tieChimera1 ∈ [tieChimera1, tieChimera2] ∧
        ∀ c' ∈ [tieChimera1, tieChimera2],
          chimeraKey exampleClusterMap exampleGenomeMap c' =
            chimeraKey exampleClusterMap exampleGenomeMap tieChimera1 →
          chimeraStats c' ≤ chimeraStats tieChimera1) :=
  ⟨by decide,
    collapse_keeps_group_maxima exampleClusterMap exampleGenomeMap
      [tieChimera1, tieChimera2] (by decide) tieChimera1⟩

/-- C7: the isoform-collapse pass is idempotent — collapsing an
already-collapsed record list keeps every record (record names assumed
distinct). -/
theorem collapse_isoforms_idempotent (cm : String → ℕ) (gm : String → Int → Int)
    (cs : List Chimera) (hn : (cs.map Chimera.name).Nodup) :
    collapse_isoforms cm gm (collapse_isoforms cm gm cs) =
      collapse_isoforms cm gm cs := by
  have hsub : ∀ x ∈ collapse_isoforms cm gm cs, x ∈ cs := fun x hx =>
    List.mem_of_mem_filter hx
  have hn' : ((collapse_isoforms cm gm cs).map Chimera.name).Nodup := by
    unfold collapse_isoforms
    exact List.Nodup.sublist (List.Sublist.map _ (List.filter_sublist _)) hn
  conv_lhs => rw [collapse_isoforms]
  rw [List.filter_eq_self]
  intro c hc
  obtain ⟨hccs, hub⟩ := (mem_collapse_isoforms_iff cm gm cs hn c).1 hc
  apply decide_eq_true
  apply (name_mem_kept_iff cm gm (collapse_isoforms cm gm cs) hn' c hc).2
  apply (isHighestCoverage_iff_forall cm gm (collapse_isoforms cm gm cs) c hc).2
  intro c' hc' hk
  exact hub c' (hsub c' hc') hk

/-- Witness for C7 at the tied pair. -/
theorem collapse_isoforms_idempotent_witness :
    (([tieChimera1, tieChimera2].map Chimera.name).Nodup) ∧
    collapse_isoforms exampleClusterMap exampleGenomeMap
        (collapse_isoforms exampleClusterMap exampleGenomeMap
          [tieChimera1, tieChimera2]) =
      collapse_isoforms exampleClusterMap exampleGenomeMap
        [tieChimera1, tieChimera2] :=
  ⟨by decide,
    collapse_isoforms_idempotent exampleClusterMap exampleGenomeMap
      [tieChimera1, tieChimera2] (by decide)⟩

/-- C3: a record whose (tx5p, end5p, tx3p, start3p) tuple is in the parsed
false-positive blacklist is never written to the output of
`filter_chimeras`, whatever its coverage or spanning evidence (record
names assumed distinct). -/
theorem blacklisted_never_in_output (cm : String → ℕ) (gm : String → Int → Int)
    (cs : List Chimera) (weighted_unique_frags : ℚ) (max_isize : Int)
    (false_pos_pairs : List (String × Int × String × Int))
    (hn : (cs.map Chimera.name).Nodup) (c : Chimera)
    (hb : false_pos_key c ∈ false_pos_pairs) :
    c ∉ filter_chimeras_records cm gm cs weighted_unique_frags max_isize
      false_pos_pairs := by
  intro hmem
  simp only [filter_chimeras_records] at hmem
  obtain ⟨hc, hdec⟩ := List.mem_filter.1 hmem
  have hname := of_decide_eq_true hdec
  simp only [get_highest_coverage_isoforms] at hname
  obtain ⟨c', hc'f, hnameeq⟩ := List.mem_map.1 hname
  obtain ⟨hc'tmp, _⟩ := List.mem_filter.1 hc'f
  have hc'cs : c' ∈ cs := List.mem_of_mem_filter hc'tmp
  have hcc : c' = c := List.inj_on_of_nodup_map hn hc'cs hc hnameeq
  rw [hcc] at hc'tmp
  have hpass := (List.mem_filter.1 hc'tmp).2
  simp only [chimera_passes, Bool.and_eq_true, Bool.not_eq_true'] at hpass
  exact (of_decide_eq_false hpass.2) hb

/-- Witness for C3: a record with weighted coverage 100 and spanning
evidence whose key is blacklisted is absent from the filter output. -/
theorem blacklisted_never_in_output_witness :
    (([blackChimera].map Chimera.name).Nodup) ∧
    false_pos_key blackChimera ∈ [false_pos_key blackChimera] ∧
    blackChimera ∉ filter_chimeras_records exampleClusterMap exampleGenomeMap
      [blackChimera] 3 1000 [false_pos_key blackChimera] :=
  ⟨by decide, by decide,
    blacklisted_never_in_output exampleClusterMap exampleGenomeMap [blackChimera]
      3 1000 [false_pos_key blackChimera] (by decide) blackChimera (by decide)⟩

/-- C6: when the empirical sample count is below the configured minimum,
the pipeline replaces the distribution with the synthetic one generated
from the configured mean and stdev bounded by the fragment-length range,
emits the warning, and still hands a usable (non-empty) distribution to
the filter stage. -/
theorem insert_size_fallback_spec (empirical : InsertSizeDistribution)
    (isize_mean isize_stdev min_fragment_length max_fragment_length : Int)
    (max_isize_samples isize_min_samples : Nat) (noise : Nat → Int)
    (hlow : empirical.n < isize_min_samples)
    (hrange : min_fragment_length ≤ max_fragment_length)
    (hpos : 0 < max_isize_samples) :
    (insert_size_fallback empirical isize_mean isize_stdev min_fragment_length
        max_fragment_length max_isize_samples isize_min_samples noise).2 = true ∧
    (insert_size_fallback empirical isize_mean isize_stdev min_fragment_length
        max_fragment_length max_isize_samples isize_min_samples noise).1 =
      InsertSizeDistribution.from_random isize_mean isize_stdev min_fragment_length
        max_fragment_length max_isize_samples noise ∧
    0 < (insert_size_fallback empirical isize_mean isize_stdev min_fragment_length
        max_fragment_length max_isize_samples isize_min_samples noise).1.n ∧
    ∀ x ∈ (insert_size_fallback empirical isize_mean isize_stdev min_fragment_length
        max_fragment_length max_isize_samples isize_min_samples noise).1.isizes,
      min_fragment_length ≤ x ∧ x ≤ max_fragment_length := by
  unfold insert_size_fallback
  rw [if_pos hlow]
  refine ⟨rfl, rfl, ?_, ?_⟩
  · simpa [InsertSizeDistribution.from_random, InsertSizeDistribution.n] using hpos
  · intro x hx
    simp only [InsertSizeDistribution.from_random, List.mem_map, List.mem_range] at hx
    obtain ⟨i, _, rfl⟩ := hx
    exact ⟨le_max_left _ _, max_le hrange (min_le_left _ _)⟩

/-- Witness for C6: an empty empirical distribution (0 samples, minimum
100) falls back to the synthetic distribution of 3 samples over the range
0..1000, with the warning emitted. -/
theorem insert_size_fallback_spec_witness :
    (⟨[]⟩ : InsertSizeDistribution).n < 100 ∧ (0 : Int) ≤ 1000 ∧ 0 < 3 ∧
    (insert_size_fallback ⟨[]⟩ 200 40 0 1000 3 100 (fun _ => 0)).2 = true ∧
    0 < (insert_size_fallback ⟨[]⟩ 200 40 0 1000 3 100 (fun _ => 0)).1.n :=
  ⟨by decide, by decide, by decide,
    (insert_size_fallback_spec ⟨[]⟩ 200 40 0 1000 3 100 (fun _ => 0)
      (by decide) (by decide) (by decide)).1,
    (insert_size_fallback_spec ⟨[]⟩ 200 40 0 1000 3 100 (fun _ => 0)
      (by decide) (by decide) (by decide)).2.2.1⟩

/-- C8: `filter_chimeras` never mutates its input file: when the fresh
temporary path and the output path differ from the input path, the input's
content is unchanged, the temporary file is gone on return, and no path
other than the temporary and the output is touched. -/
theorem filter_chimeras_fs_preserves_input (parse : List String → List Chimera)
    (render : Chimera → String)
    (txClusterMap : String → ℕ) (txGenomeMap : String → Int → Int)
    (fs : FileSys) (input_file output_file tmp_file : String)
    (weighted_unique_frags : ℚ) (max_isize : Int)
    (false_pos_pairs : List (String × Int × String × Int))
    (hti : input_file ≠ tmp_file) (hio : input_file ≠ output_file) :
    (filter_chimeras_fs parse render txClusterMap txGenomeMap fs input_file
        output_file tmp_file weighted_unique_frags max_isize false_pos_pairs)
      input_file = fs input_file ∧
    (filter_chimeras_fs parse render txClusterMap txGenomeMap fs input_file
        output_file tmp_file weighted_unique_frags max_isize false_pos_pairs)
      tmp_file = none ∧
    ∀ p, p ≠ tmp_file → p ≠ output_file →
      (filter_chimeras_fs parse render txClusterMap txGenomeMap fs input_file
          output_file tmp_file weighted_unique_frags max_isize false_pos_pairs)
        p = fs p := by
  refine ⟨?_, ?_, ?_⟩
  · simp [filter_chimeras_fs, FileSys.write, FileSys.remove, hti, hio]
  · simp [filter_chimeras_fs, FileSys.write, FileSys.remove]
  · intro p hp1 hp2
    simp [filter_chimeras_fs, FileSys.write, FileSys.remove, hp1, hp2]

/-- Witness for C8 at a concrete file system holding one input file. -/
theorem filter_chimeras_fs_preserves_input_witness :
    inputPath ≠ tmpPath ∧ inputPath ≠ outputPath ∧
    (filter_chimeras_fs exParse exRender exampleClusterMap exampleGenomeMap exFS
        inputPath outputPath tmpPath 3 1000 []) inputPath = exFS inputPath ∧
    (filter_chimeras_fs exParse exRender exampleClusterMap exampleGenomeMap exFS
        inputPath outputPath tmpPath 3 1000 []) tmpPath = none :=
  ⟨by decide, by decide,
    (filter_chimeras_fs_preserves_input exParse exRender exampleClusterMap
      exampleGenomeMap exFS inputPath outputPath tmpPath 3 1000 []
      (by decide) (by decide)).1,
    (filter_chimeras_fs_preserves_input exParse exRender exampleClusterMap
      exampleGenomeMap exFS inputPath outputPath tmpPath 3 1000 []
      (by decide) (by decide)).2.1⟩
